import Mathlib

/-!
Verification of the bitbucket-deploy-tool repository.

Script 1 (`deployment_on_aws_server.py`) pushes a local `build` tree to a
remote host over SSH/SFTP and swaps it into place:
  * `transfer_files` walks the local build tree and copies every file to
    `{DEPLOY_PATH}_temp` on the remote host;
  * `switch_to_new_version` issues `mv DEPLOY_PATH {DEPLOY_PATH}_backup`,
    `mv {DEPLOY_PATH}_temp DEPLOY_PATH`, `rm -rf {DEPLOY_PATH}_backup`
    via fire-and-forget `exec_command` calls, and on a Python exception
    attempts one rollback command `mv {DEPLOY_PATH}_backup DEPLOY_PATH`
    and re-raises;
  * `main` runs connect / transfer / switch / restart inside
    `try/except/finally`, logging and swallowing exceptions in `except`
    and closing the SSH session in `finally` guarded by `if ssh:`.

Script 2 (`deployment_pipeline_from_using_python_script.py`) orchestrates
clone-or-pull of three repositories; its existence check
`check_code_already_exists` matches any *directory* in the current working
directory whose name starts with the repository name; its `main` logs and
re-raises.

The remote filesystem relevant to the swap stage is modelled as a partial
map from path strings to directory trees, with shell `mv` / `rm -rf`
semantics for the cases the deployment scenarios reach.  Remote command
results are never inspected by the scripts, so a remotely failing command
leaves the filesystem unchanged and raises nothing; Python-level
exceptions from the SSH session are modelled by an injection function
saying which `exec_command` call raises.
-/

/-- A file tree: a file with byte contents, or a directory with named
entries.  Byte-for-byte content equality is equality of `FSNode` values. -/
inductive FSNode where
  | file (content : List Nat)
  | dir (entries : List (String × FSNode))

/-- The remote filesystem at directory granularity: each absolute path
either holds a tree or is absent. -/
def FS : Type := String → Option FSNode

/-- Point update of the remote filesystem. -/
def updateFS (fs : FS) (p : String) (v : Option FSNode) : FS :=
  fun q => if q = p then v else fs q

/-- Last component of a path string (used by `mv` when the destination
directory already exists). -/
def basename (s : String) : String :=
  (s.splitOn "/").getLastD s

/-- Shell `mv src dst`: if `src` is absent the command fails and changes
nothing (the scripts never inspect the exit status); if `dst` is absent,
`src` is renamed to `dst`; if `dst` is an existing directory, `src` is
moved inside it under its basename (replacing nothing else); if `dst` is
an existing file it is overwritten.  Finer collision cases of `mv` are
outside every scenario the deployment scripts reach. -/
def mvRun (fs : FS) (src dst : String) : FS :=
  match fs src with
  | none => fs
  | some t =>
    match fs dst with
    | none => updateFS (updateFS fs src none) dst (some t)
    | some (FSNode.dir es) =>
        updateFS (updateFS fs src none) dst
          (some (FSNode.dir (es ++ [(basename src, t)])))
    | some (FSNode.file _) => updateFS (updateFS fs src none) dst (some t)

/-- Shell `rm -rf d`: removes `d` if present, succeeds either way. -/
def rmrfRun (fs : FS) (d : String) : FS :=
  updateFS fs d none

/-- A remote command issued through `ssh.exec_command`. -/
inductive RCmd where
  | mv (src dst : String)
  | rmrf (d : String)
  deriving DecidableEq

/-- Outcome of one run of `switch_to_new_version`: the resulting remote
filesystem, the commands issued inside the `try` block, the commands
issued by the `except` handler (the rollback), and whether the function
returned normally (`ok = true`) or (re-)raised. -/
structure SwapResult where
  fs : FS
  tryTrace : List RCmd
  handlerTrace : List RCmd
  ok : Bool

/-- The `except` handler of `switch_to_new_version`: logs, issues the one
rollback command `mv {DEPLOY_PATH}_backup DEPLOY_PATH`, logs, and
re-raises.  `raises 3` injects a session failure into the rollback
`exec_command` itself (in which case the command is attempted but never
executes remotely, and an exception still propagates).  In every case the
function ends by raising, never by returning success. -/
def rollbackHandler (dp : String) (raises : Nat → Bool) (fs : FS)
    (tr : List RCmd) : SwapResult :=
  let backup_dir := dp ++ "_backup"
  if raises 3 then
    { fs := fs, tryTrace := tr, handlerTrace := [RCmd.mv backup_dir dp],
      ok := false }
  else
    { fs := mvRun fs backup_dir dp, tryTrace := tr,
      handlerTrace := [RCmd.mv backup_dir dp], ok := false }

/-- `switch_to_new_version` from `deployment_on_aws_server.py`: issues
`mv DEPLOY_PATH backup`, `mv temp DEPLOY_PATH`, `rm -rf backup` in order,
never inspecting remote exit statuses.  `raises i = true` means the i-th
`exec_command` call raises a session-level exception (the command is then
not executed remotely and control jumps to the `except` handler). -/
def switch_to_new_version (dp : String) (raises : Nat → Bool) (fs0 : FS) :
    SwapResult :=
  let temp_dir := dp ++ "_temp"
  let backup_dir := dp ++ "_backup"
  if raises 0 then rollbackHandler dp raises fs0 []
  else
    let fs1 := mvRun fs0 dp backup_dir
    if raises 1 then rollbackHandler dp raises fs1 [RCmd.mv dp backup_dir]
    else
      let fs2 := mvRun fs1 temp_dir dp
      if raises 2 then
        rollbackHandler dp raises fs2
          [RCmd.mv dp backup_dir, RCmd.mv temp_dir dp]
      else
        let fs3 := rmrfRun fs2 backup_dir
        { fs := fs3,
          tryTrace := [RCmd.mv dp backup_dir, RCmd.mv temp_dir dp,
                       RCmd.rmrf backup_dir],
          handlerTrace := [], ok := true }

/-- Appending a nonempty string changes a string. -/
theorem ne_append_of_length_pos (s t : String) (h : 0 < t.length) :
    s ≠ s ++ t := by
  intro he
  have hl : s.length = s.length + t.length := by
    conv_lhs => rw [he]
    exact String.length_append s t
  omega

/-- Left-cancellation for string append. -/
theorem append_left_cancel_str {s t u : String} (h : s ++ t = s ++ u) :
    t = u := by
  have hd : s.data ++ t.data = s.data ++ u.data := by
    have := congrArg String.data h
    simpa [String.data_append] using this
  have : t.data = u.data := List.append_cancel_left hd
  exact String.ext this

theorem deploy_ne_backup (dp : String) : dp ≠ dp ++ "_backup" :=
  ne_append_of_length_pos dp "_backup" (by decide)

theorem deploy_ne_temp (dp : String) : dp ≠ dp ++ "_temp" :=
  ne_append_of_length_pos dp "_temp" (by decide)

theorem temp_ne_backup (dp : String) : dp ++ "_temp" ≠ dp ++ "_backup" := by
  intro h
  have : ("_temp" : String) = "_backup" := append_left_cancel_str h
  exact absurd this (by decide)

/-- Convenient bundle of the three path-distinctness facts. -/
theorem swap_paths_distinct (dp : String) :
    dp ≠ dp ++ "_backup" ∧ dp ≠ dp ++ "_temp" ∧
    dp ++ "_temp" ≠ dp ++ "_backup" :=
  ⟨deploy_ne_backup dp, deploy_ne_temp dp, temp_ne_backup dp⟩

/-- C1.  Swap Stage success postcondition: with a live tree `L` at the
deploy path, a staging tree `S` at `{dp}_temp` and no leftover backup, a
run of `switch_to_new_version` in which no call raises returns success,
leaves exactly the former staging tree `S` at the live path, and leaves
nothing at the backup or staging paths (the original live tree is gone). -/
theorem swap_success_postcondition (dp : String) (fs : FS) (L S : FSNode)
    (hl : fs dp = some L) (hs : fs (dp ++ "_temp") = some S)
    (hb : fs (dp ++ "_backup") = none) :
    (switch_to_new_version dp (fun _ => false) fs).ok = true ∧
    (switch_to_new_version dp (fun _ => false) fs).fs dp = some S ∧
    (switch_to_new_version dp (fun _ => false) fs).fs (dp ++ "_backup") = none ∧
    (switch_to_new_version dp (fun _ => false) fs).fs (dp ++ "_temp") = none := by
  have hdb := deploy_ne_backup dp
  have hdt := deploy_ne_temp dp
  have htb := temp_ne_backup dp
  have hdb' := hdb.symm
  have hdt' := hdt.symm
  have htb' := htb.symm
  refine ⟨rfl, ?_, ?_, ?_⟩ <;>
    simp [switch_to_new_version, mvRun, rmrfRun, updateFS, hl, hs, hb,
      hdb, hdt, htb, hdb', hdt', htb']

/-- Concrete deployment state for the end-to-end scenario of C1: an empty
live directory at `"app"` and a staging directory `"app_temp"` holding
exactly `index.html`. -/
def scenarioFS : FS :=
  fun p =>
    if p = "app" then some (FSNode.dir [])
    else if p = "app_temp" then
      some (FSNode.dir [("index.html", FSNode.file [104, 105])])
    else none

theorem swap_success_postcondition_witness :
    (switch_to_new_version "app" (fun _ => false) scenarioFS).ok = true ∧
    (switch_to_new_version "app" (fun _ => false) scenarioFS).fs "app" =
      some (FSNode.dir [("index.html", FSNode.file [104, 105])]) ∧
    (switch_to_new_version "app" (fun _ => false) scenarioFS).fs "app_backup" =
      none ∧
    (switch_to_new_version "app" (fun _ => false) scenarioFS).fs "app_temp" =
      none :=
  swap_success_postcondition "app" scenarioFS (FSNode.dir [])
    (FSNode.dir [("index.html", FSNode.file [104, 105])]) rfl rfl rfl

/-- C2.  Swap Stage rollback round-trip: if the second rename
(staging → live) raises after the first rename (live → backup) executed,
the handler's rollback command `mv backup live` restores the original
pre-swap live tree `L` at the live path, and the stage re-raises. -/
theorem swap_rollback_restores_live (dp : String) (fs : FS) (L : FSNode)
    (hl : fs dp = some L) (hb : fs (dp ++ "_backup") = none) :
    (switch_to_new_version dp (fun i => i == 1) fs).fs dp = some L ∧
    (switch_to_new_version dp (fun i => i == 1) fs).ok = false ∧
    (switch_to_new_version dp (fun i => i == 1) fs).handlerTrace =
      [RCmd.mv (dp ++ "_backup") dp] := by
  have hdb := deploy_ne_backup dp
  have hdb' := hdb.symm
  refine ⟨?_, rfl, rfl⟩
  simp [switch_to_new_version, rollbackHandler, mvRun, updateFS, hl, hb,
    hdb, hdb']

theorem swap_rollback_restores_live_witness :
    (switch_to_new_version "app" (fun i => i == 1) scenarioFS).fs "app" =
      some (FSNode.dir []) ∧
    (switch_to_new_version "app" (fun i => i == 1) scenarioFS).ok = false ∧
    (switch_to_new_version "app" (fun i => i == 1) scenarioFS).handlerTrace =
      [RCmd.mv "app_backup" "app"] :=
  swap_rollback_restores_live "app" scenarioFS (FSNode.dir []) rfl rfl

/-- C3.  Swap Stage command sequence: in a run where no call raises, the
stage issues exactly the three remote commands rename live→backup,
rename staging→live, delete backup, in this order, and this trace is the
same for every remote filesystem state — the stage never waits for or
inspects any command's exit status before issuing the next. -/
theorem swap_issues_three_commands_in_order (dp : String) (fs : FS) :
    (switch_to_new_version dp (fun _ => false) fs).tryTrace =
      [RCmd.mv dp (dp ++ "_backup"), RCmd.mv (dp ++ "_temp") dp,
       RCmd.rmrf (dp ++ "_backup")] ∧
    (switch_to_new_version dp (fun _ => false) fs).handlerTrace = [] :=
  ⟨rfl, rfl⟩

/-- C4.  Swap Stage failure handling: whenever one of the three try-block
calls raises, the `except` handler attempts exactly one rollback command,
`mv {dp}_backup {dp}`, and the stage ends by raising (`ok = false`) —
never by returning success. -/
theorem swap_exception_rollback_reraise (dp : String) (raises : Nat → Bool)
    (fs : FS) (h : raises 0 = true ∨ raises 1 = true ∨ raises 2 = true) :
    (switch_to_new_version dp raises fs).handlerTrace =
      [RCmd.mv (dp ++ "_backup") dp] ∧
    (switch_to_new_version dp raises fs).ok = false := by
  cases h0 : raises 0 <;> cases h1 : raises 1 <;> cases h2 : raises 2 <;>
    cases h3 : raises 3 <;>
      simp [switch_to_new_version, rollbackHandler, h0, h1, h2, h3] at h ⊢

theorem swap_exception_rollback_reraise_witness :
    (switch_to_new_version "app" (fun _ => true) scenarioFS).handlerTrace =
      [RCmd.mv "app_backup" "app"] ∧
    (switch_to_new_version "app" (fun _ => true) scenarioFS).ok = false :=
  swap_exception_rollback_reraise "app" (fun _ => true) scenarioFS
    (Or.inl rfl)

/-- Concrete first-deploy state: no live directory at `"app"`, no backup,
only the staging tree at `"app_temp"`. -/
def firstDeployFS : FS :=
  fun p =>
    if p = "app_temp" then
      some (FSNode.dir [("index.html", FSNode.file [104, 105])])
    else none

/-- C5 counterexample.  In a first-deploy swap run (live directory
missing) in which no call raises, the failed first rename goes unnoticed
(remote results are never checked), no exception is raised, and the
handler — hence the rollback command — never runs: the run issues no
rollback at all and returns success, contradicting the claim that the
design attempts the rollback command during that swap run. -/
theorem first_deploy_attempts_no_rollback :
    (switch_to_new_version "app" (fun _ => false) firstDeployFS).handlerTrace
      = [] ∧
    (switch_to_new_version "app" (fun _ => false) firstDeployFS).ok = true :=
  ⟨rfl, rfl⟩

/-- C5 amended.  First-deploy rollback behaviour: with the live directory
missing and no backup present, (a) a run in which no call raises attempts
no rollback and returns success, while (b) in any run where a try-block
call raises, the handler attempts the rollback command unconditionally
even though no backup was ever created (the backup path is still absent
at the end of the run). -/
theorem first_deploy_rollback_behaviour (dp : String) (raises : Nat → Bool)
    (fs : FS) (hlive : fs dp = none) (hb : fs (dp ++ "_backup") = none) :
    ((switch_to_new_version dp (fun _ => false) fs).handlerTrace = [] ∧
     (switch_to_new_version dp (fun _ => false) fs).ok = true) ∧
    (raises 0 = true ∨ raises 1 = true ∨ raises 2 = true →
      (switch_to_new_version dp raises fs).handlerTrace =
        [RCmd.mv (dp ++ "_backup") dp] ∧
      (switch_to_new_version dp raises fs).fs (dp ++ "_backup") = none) := by
  have hdb' := (deploy_ne_backup dp).symm
  have htb := temp_ne_backup dp
  refine ⟨⟨rfl, rfl⟩, fun h => ?_⟩
  cases h0 : raises 0 <;> cases h1 : raises 1 <;> cases h2 : raises 2 <;>
    cases h3 : raises 3 <;>
      simp [switch_to_new_version, rollbackHandler, h0, h1, h2, h3] at h ⊢ <;>
        cases ht : fs (dp ++ "_temp") <;>
          simp [mvRun, updateFS, hlive, hb, ht, hdb', htb]

theorem first_deploy_rollback_behaviour_witness :
    ((switch_to_new_version "app" (fun _ => false) firstDeployFS).handlerTrace
        = [] ∧
     (switch_to_new_version "app" (fun _ => false) firstDeployFS).ok = true) ∧
    ((switch_to_new_version "app" (fun i => i == 0) firstDeployFS).handlerTrace
        = [RCmd.mv "app_backup" "app"] ∧
     (switch_to_new_version "app" (fun i => i == 0) firstDeployFS).fs
        "app_backup" = none) :=
  ⟨(first_deploy_rollback_behaviour "app" (fun i => i == 0) firstDeployFS
      rfl rfl).1,
   (first_deploy_rollback_behaviour "app" (fun i => i == 0) firstDeployFS
      rfl rfl).2 (Or.inl rfl)⟩

/-- Exceptions observable at the top level of either script: an exception
propagated from a stage (identified by an abstract tag), or the
`UnboundLocalError` that the `finally` block of script 1 raises when it
evaluates `if ssh:` while `ssh` was never assigned. -/
inductive ExcKind where
  | stageErr (tag : Nat)
  | unboundLocal
  deriving DecidableEq

/-- How a `main` invocation ends: a normal return, or an exception
propagating to the caller. -/
inductive RunOutcome where
  | normal
  | raised (e : ExcKind)
  deriving DecidableEq

/-- Outcomes of the four stages of script 1's `main`, in call order:
`none` means the stage returns normally, `some tag` means it raises the
exception with that tag.  Later fields are irrelevant when an earlier
stage raises, since the `try` block stops at the first exception. -/
structure Stage1Outcomes where
  connect : Option Nat
  transfer : Option Nat
  switchStage : Option Nat
  restart : Option Nat

/-- Result of the `try` block of script 1's `main`: the first exception
raised by a stage (if any), and whether the local variable `ssh` was
bound (which happens exactly when `connect_to_server` returned). -/
def runStages1 (o : Stage1Outcomes) : Option Nat × Bool :=
  match o.connect with
  | some e => (some e, false)
  | none =>
    match o.transfer with
    | some e => (some e, true)
    | none =>
      match o.switchStage with
      | some e => (some e, true)
      | none =>
        match o.restart with
        | some e => (some e, true)
        | none => (none, true)

/-- What one run of script 1's `main` does at the top level. -/
structure MainResult where
  outcome : RunOutcome
  sessionOpened : Bool
  sessionClosed : Bool

/-- `main` of `deployment_on_aws_server.py`: runs the four stages in a
`try` block; the `except` block logs and swallows any stage exception;
the `finally` block evaluates `if ssh:`.  When `connect_to_server`
returned, `ssh` is bound to a (truthy) client and is closed; when the
connection stage raised, `ssh` was never assigned, so the `finally`
block itself raises `UnboundLocalError`, which propagates to the caller
(no session was opened on that path, so none is left open). -/
def script1_main (o : Stage1Outcomes) : MainResult :=
  match runStages1 o with
  | (_, true) =>
      { outcome := RunOutcome.normal, sessionOpened := true,
        sessionClosed := true }
  | (_, false) =>
      { outcome := RunOutcome.raised ExcKind.unboundLocal,
        sessionOpened := false, sessionClosed := false }

/-- `main` of `deployment_pipeline_from_using_python_script.py`: runs the
six orchestration steps in a `try` block; the `except` block logs the
first exception and re-raises the same exception to the caller.  The
argument is the first exception raised by any step, if any. -/
def script2_main (firstExc : Option Nat) : RunOutcome :=
  match firstExc with
  | some e => RunOutcome.raised (ExcKind.stageErr e)
  | none => RunOutcome.normal

/-- C6 counterexample.  A script-1 run whose connection stage raises does
not end in a swallowed failure: `main` propagates an exception
(`UnboundLocalError` from the `finally` block's `if ssh:` on the unbound
variable) to its caller, contradicting the claim that script 1's driver
swallows every stage failure. -/
theorem script1_connect_failure_propagates :
    (script1_main
        { connect := some 0, transfer := none, switchStage := none,
          restart := none }).outcome ≠ RunOutcome.normal := by
  decide

/-- C6 amended.  Top-level error propagation: when script 1's connection
stage succeeds, its driver logs and swallows any later stage exception
and `main` returns normally; when the connection stage itself raises, the
original exception is swallowed but the `finally` block raises
`UnboundLocalError`, which propagates to the caller.  Script 2's driver
re-raises the first stage exception unchanged and returns normally only
when no stage raised. -/
theorem toplevel_error_propagation (o : Stage1Outcomes) (e t : Nat) :
    (script1_main { o with connect := none }).outcome = RunOutcome.normal ∧
    (script1_main { o with connect := some e }).outcome =
      RunOutcome.raised ExcKind.unboundLocal ∧
    script2_main (some t) = RunOutcome.raised (ExcKind.stageErr t) ∧
    script2_main none = RunOutcome.normal := by
  refine ⟨?_, rfl, rfl, rfl⟩
  cases ht : o.transfer <;> cases hs : o.switchStage <;> cases hr : o.restart <;>
    simp [script1_main, runStages1, ht, hs, hr]

/-- C7.  Remote session lifecycle in script 1: on every run, the session
is closed exactly when it was opened — when the connection stage
succeeds, the `finally` block closes the bound session on both the
success path and every stage-failure path; when the connection stage
fails, no session was ever opened in `main`, so none is left open when
`main` returns. -/
theorem session_closed_iff_opened (o : Stage1Outcomes) :
    (script1_main o).sessionClosed = (script1_main o).sessionOpened := by
  unfold script1_main
  rcases h : runStages1 o with ⟨exc, bound⟩
  cases bound <;> rfl

/-- Python's `str.startswith(pre)`: true iff the characters of `pre` are
an initial segment of the characters of `s`. -/
def startswith (s pre : String) : Bool :=
  pre.data.isPrefixOf s.data

/-- One entry of the current working directory, as seen through
`Path('.').iterdir()`: a name plus whether the entry is a directory. -/
structure DirEntry where
  name : String
  isDir : Bool
  deriving DecidableEq

/-- `check_code_already_exists` from
`deployment_pipeline_from_using_python_script.py`: true iff some entry of
the current working directory is a directory whose name starts with
`repo_name`. -/
def check_code_already_exists (repo_name : String) (cwd : List DirEntry) :
    Bool :=
  cwd.any fun d => d.isDir && startswith d.name repo_name

/-- The credential-embedded clone URL of the frontend repository. -/
def frontend_repo_url (username app_password : String) : String :=
  "https://" ++ username ++ ":" ++ app_password ++
    "@bitbucket.org/sicunet1/jupiter-frontend.git"

/-- The repository-sync action the orchestrator performs: switch to a
fixed branch and pull inside an existing directory, or clone a URL into a
fresh directory. -/
inductive RepoAction where
  | pull (dir branch : String)
  | clone (url dir : String)
  deriving DecidableEq

/-- `clone_or_pull_frontend_repo`: if the existence check accepts
`"frontend"`, checkout `main` and pull inside the `frontend` directory;
otherwise clone the credential-embedded URL into `frontend`. -/
def clone_or_pull_frontend_repo (username app_password : String)
    (cwd : List DirEntry) : RepoAction :=
  if check_code_already_exists "frontend" cwd then
    RepoAction.pull "frontend" "main"
  else
    RepoAction.clone (frontend_repo_url username app_password) "frontend"

/-- C9.  The orchestrator's existence check is a name-start match over
directories: any directory entry whose name starts with the queried
repository name makes the check return true; in particular a lone
directory `frontend-v2` classifies the frontend repository as existing,
so the orchestrator pulls inside `frontend` instead of cloning. -/
theorem check_is_name_start_match (repo_name : String)
    (cwd : List DirEntry) (d : DirEntry) (hmem : d ∈ cwd)
    (hdir : d.isDir = true) (hstart : startswith d.name repo_name = true) :
    check_code_already_exists repo_name cwd = true ∧
    ∀ u p, clone_or_pull_frontend_repo u p [⟨"frontend-v2", true⟩] =
      RepoAction.pull "frontend" "main" := by
  constructor
  · exact List.any_eq_true.mpr ⟨d, hmem, by simp [hdir, hstart]⟩
  · intro u p
    simp [clone_or_pull_frontend_repo, check_code_already_exists,
      startswith]

theorem check_is_name_start_match_witness :
    check_code_already_exists "frontend" [⟨"frontend-v2", true⟩] = true ∧
    ∀ u p, clone_or_pull_frontend_repo u p [⟨"frontend-v2", true⟩] =
      RepoAction.pull "frontend" "main" :=
  check_is_name_start_match "frontend" [⟨"frontend-v2", true⟩]
    ⟨"frontend-v2", true⟩ (by decide) rfl (by decide)

/-- C10.  The existence check considers only directories: if every entry
whose name starts with the repository name is a non-directory, the check
returns false; in particular with a lone regular file named exactly
`frontend` in the working directory, the orchestrator clones rather than
pulls. -/
theorem check_ignores_non_directories (repo_name : String)
    (cwd : List DirEntry)
    (h : ∀ d ∈ cwd, startswith d.name repo_name = true → d.isDir = false) :
    check_code_already_exists repo_name cwd = false ∧
    ∀ u p, clone_or_pull_frontend_repo u p [⟨"frontend", false⟩] =
      RepoAction.clone (frontend_repo_url u p) "frontend" := by
  constructor
  · simp only [check_code_already_exists, List.any_eq_false]
    intro d hd
    simp only [Bool.and_eq_true, not_and]
    intro hdir hstart
    exact absurd (h d hd hstart) (by simp [hdir])
  · intro u p
    simp [clone_or_pull_frontend_repo, check_code_already_exists,
      startswith]

theorem check_ignores_non_directories_witness :
    check_code_already_exists "frontend" [⟨"frontend", false⟩] = false ∧
    ∀ u p, clone_or_pull_frontend_repo u p [⟨"frontend", false⟩] =
      RepoAction.clone (frontend_repo_url u p) "frontend" :=
  check_ignores_non_directories "frontend" [⟨"frontend", false⟩]
    (by decide)

/-- The files directly contained in a directory's entry list, as
(relative path, bytes) pairs — the `files` part of one `os.walk` step. -/
def filesOfEntries (es : List (String × FSNode)) :
    List (List String × List Nat) :=
  es.filterMap fun e =>
    match e.2 with
    | FSNode.file b => some ([e.1], b)
    | FSNode.dir _ => none

mutual
/-- All files under a local tree in `os.walk` top-down order: the files
of the current directory first, then the files of each subdirectory in
entry order, with the subdirectory name prefixed to their relative
paths. -/
def walkFiles : FSNode → List (List String × List Nat)
  | FSNode.file _ => []
  | FSNode.dir es => filesOfEntries es ++ subdirFiles es

/-- Files contributed by the subdirectories among an entry list. -/
def subdirFiles : List (String × FSNode) → List (List String × List Nat)
  | [] => []
  | (n, c) :: rest =>
      (walkFiles c).map (fun pb => (n :: pb.1, pb.2)) ++ subdirFiles rest
end

/-- `sftp.put local_path remote_path`: writes the bytes at the remote
relative path, overwriting an existing file there or creating a new
one.  The remote staging directory is modelled as an association list
from relative paths (under `{DEPLOY_PATH}_temp`) to byte contents. -/
def putFile (r : List (List String × List Nat)) (p : List String)
    (b : List Nat) : List (List String × List Nat) :=
  if r.any fun e => e.1 == p then
    r.map fun e => if e.1 == p then (p, b) else e
  else r ++ [(p, b)]

/-- `transfer_files` from `deployment_on_aws_server.py`: walks the local
build tree and copies each file, one at a time in walk order, to its
mirrored relative path in the remote staging directory (a left fold of
`sftp.put` over the walk; `mkdir -p` of parent directories is implicit
in the path-keyed map). -/
def transfer_files (build : FSNode)
    (remote0 : List (List String × List Nat)) :
    List (List String × List Nat) :=
  (walkFiles build).foldl (fun r pb => putFile r pb.1 pb.2) remote0

/-- Lookup of a remote file by its relative path. -/
def lookupFile (r : List (List String × List Nat)) (p : List String) :
    Option (List Nat) :=
  match r with
  | [] => none
  | e :: rest => if e.1 = p then some e.2 else lookupFile rest p

theorem putFile_of_fresh (r : List (List String × List Nat))
    (p : List String) (b : List Nat) (h : ∀ e ∈ r, e.1 ≠ p) :
    putFile r p b = r ++ [(p, b)] := by
  have : (r.any fun e => e.1 == p) = false := by
    simp only [List.any_eq_false, beq_iff_eq]
    exact h
  simp [putFile, this]

theorem foldl_putFile_of_disjoint (l : List (List String × List Nat)) :
    ∀ r : List (List String × List Nat),
      (∀ pb ∈ l, ∀ e ∈ r, e.1 ≠ pb.1) → (l.map Prod.fst).Nodup →
      l.foldl (fun acc pb => putFile acc pb.1 pb.2) r = r ++ l := by
  induction l with
  | nil => intro r _ _; simp
  | cons pb rest ih =>
    intro r hdisj hnd
    rw [List.map_cons] at hnd
    have hpb : pb.1 ∉ rest.map Prod.fst := (List.nodup_cons.mp hnd).1
    have hnd' : (rest.map Prod.fst).Nodup := (List.nodup_cons.mp hnd).2
    rw [List.foldl_cons,
      putFile_of_fresh r pb.1 pb.2 (fun e he => hdisj pb (by simp) e he)]
    rw [ih (r ++ [(pb.1, pb.2)]) ?_ hnd']
    · simp
    · intro qb hq e he
      rcases List.mem_append.mp he with h1 | h2
      · exact hdisj qb (List.mem_cons_of_mem pb hq) e h1
      · have he2 : e = (pb.1, pb.2) := by simpa using h2
        intro hcon
        apply hpb
        rw [he2] at hcon
        simp only at hcon
        rw [hcon]
        exact List.mem_map_of_mem Prod.fst hq

theorem lookupFile_of_mem (l : List (List String × List Nat))
    (p : List String) (b : List Nat) (hnd : (l.map Prod.fst).Nodup)
    (hm : (p, b) ∈ l) : lookupFile l p = some b := by
  induction l with
  | nil => cases hm
  | cons e rest ih =>
    rcases List.mem_cons.mp hm with he | hm'
    · rw [← he]
      simp [lookupFile]
    · have hne : e.1 ≠ p := by
        intro hq
        have h1 : e.1 ∉ rest.map Prod.fst :=
          (List.nodup_cons.mp (by simpa using hnd)).1
        exact h1 (hq ▸ List.mem_map_of_mem Prod.fst hm')
      simp only [lookupFile, if_neg hne]
      exact ih (by simpa using hnd.of_cons) hm'

/-- C8.  Transfer Stage postcondition: for any local build tree whose
files have pairwise-distinct relative paths, transferring into an empty
remote staging directory yields exactly the walked file list — the
number of remote files equals the number N of local files, and every
local file's bytes are found unchanged at its mirrored relative path —
the copy being a sequential left fold, one file at a time. -/
theorem transfer_postcondition (build : FSNode)
    (hnd : ((walkFiles build).map Prod.fst).Nodup) :
    transfer_files build [] = walkFiles build ∧
    (transfer_files build []).length = (walkFiles build).length ∧
    ∀ p b, (p, b) ∈ walkFiles build →
      lookupFile (transfer_files build []) p = some b := by
  have hmain : transfer_files build [] = walkFiles build := by
    have := foldl_putFile_of_disjoint (walkFiles build) []
      (by intro pb _ e he; cases he) hnd
    simpa [transfer_files] using this
  refine ⟨hmain, by rw [hmain], ?_⟩
  intro p b hm
  rw [hmain]
  exact lookupFile_of_mem (walkFiles build) p b hnd hm

/-- A concrete local build tree with nested directories and N = 4 files. -/
def buildTree : FSNode :=
  FSNode.dir [("index.html", FSNode.file [1]),
    ("assets", FSNode.dir [("app.js", FSNode.file [2, 3]),
      ("css", FSNode.dir [("site.css", FSNode.file [4])])]),
    ("readme.txt", FSNode.file [5])]

theorem transfer_postcondition_witness :
    transfer_files buildTree [] = walkFiles buildTree ∧
    lookupFile (transfer_files buildTree []) ["assets", "app.js"] =
      some [2, 3] :=
  ⟨(transfer_postcondition buildTree
      (by simp [buildTree, walkFiles, subdirFiles, filesOfEntries])).1,
   (transfer_postcondition buildTree
      (by simp [buildTree, walkFiles, subdirFiles, filesOfEntries])).2.2
     ["assets", "app.js"] [2, 3]
     (by simp [buildTree, walkFiles, subdirFiles, filesOfEntries])⟩
